import Mathlib

/-!
Shallow embedding of the AQI preprocessing engine of `preprocess_data.py`
(and the classifier duplicated in `app.py`).

Concentrations and index arithmetic are modelled over `ℚ` (the Python code
computes with exact decimal literals; the interpolation is a ratio of
differences).  Missing values (`NaN` / `None`) are modelled with `Option`.
Python's built-in `round` (round half to even) is modelled by `python_round`.
-/

/-- One row of a CPCB breakpoint table: `[C_low, C_high, I_low, I_high]`. -/
structure Breakpoint where
  c_low : ℚ
  c_high : ℚ
  i_low : ℤ
  i_high : ℤ
deriving DecidableEq

/-- Python 3 built-in `round` on an exact rational value: round half to even. -/
def python_round (q : ℚ) : ℤ :=
  if q - ⌊q⌋ < 1/2 then ⌊q⌋
  else if 1/2 < q - ⌊q⌋ then ⌊q⌋ + 1
  else if ⌊q⌋ % 2 = 0 then ⌊q⌋ else ⌊q⌋ + 1

/-- `get_sub_index(concentration, breakpoints)` from `preprocess_data.py`:
scan the ranges in order; the first range containing the concentration
(inclusive on both ends) linearly interpolates and rounds; if no range
contains it, return 500. -/
def get_sub_index (concentration : ℚ) : List Breakpoint → ℤ
  | [] => 500
  | bp :: rest =>
    if bp.c_low ≤ concentration ∧ concentration ≤ bp.c_high then
      python_round ((((bp.i_high : ℚ) - (bp.i_low : ℚ)) / (bp.c_high - bp.c_low)) *
        (concentration - bp.c_low) + (bp.i_low : ℚ))
    else
      get_sub_index concentration rest

/-- CPCB PM2.5 breakpoints (`pm25_bp` in the source). -/
def pm25_bp : List Breakpoint :=
  [⟨0, 30, 0, 50⟩, ⟨31, 60, 51, 100⟩, ⟨61, 90, 101, 200⟩,
   ⟨91, 120, 201, 300⟩, ⟨121, 250, 301, 400⟩, ⟨251, 500, 401, 500⟩]

/-- CPCB PM10 breakpoints (`pm10_bp` in the source). -/
def pm10_bp : List Breakpoint :=
  [⟨0, 50, 0, 50⟩, ⟨51, 100, 51, 100⟩, ⟨101, 250, 101, 200⟩,
   ⟨251, 350, 201, 300⟩, ⟨351, 430, 301, 400⟩, ⟨431, 600, 401, 500⟩]

/-- CPCB NO2 breakpoints (`no2_bp` in the source). -/
def no2_bp : List Breakpoint :=
  [⟨0, 40, 0, 50⟩, ⟨41, 80, 51, 100⟩, ⟨81, 180, 101, 200⟩,
   ⟨181, 280, 201, 300⟩, ⟨281, 400, 301, 400⟩, ⟨401, 600, 401, 500⟩]

/-- CPCB SO2 breakpoints (`so2_bp` in the source). -/
def so2_bp : List Breakpoint :=
  [⟨0, 40, 0, 50⟩, ⟨41, 80, 51, 100⟩, ⟨81, 380, 101, 200⟩,
   ⟨381, 800, 201, 300⟩, ⟨801, 1600, 301, 400⟩, ⟨1601, 2000, 401, 500⟩]

/-- CPCB CO breakpoints, mg/m³ (`co_bp` in the source). -/
def co_bp : List Breakpoint :=
  [⟨0, 1, 0, 50⟩, ⟨1.1, 2, 51, 100⟩, ⟨2.1, 10, 101, 200⟩,
   ⟨10.1, 17, 201, 300⟩, ⟨17.1, 34, 301, 400⟩, ⟨34.1, 50, 401, 500⟩]

/-- CPCB O3 breakpoints (`o3_bp` in the source). -/
def o3_bp : List Breakpoint :=
  [⟨0, 50, 0, 50⟩, ⟨51, 100, 51, 100⟩, ⟨101, 168, 101, 200⟩,
   ⟨169, 208, 201, 300⟩, ⟨209, 748, 301, 400⟩, ⟨749, 1000, 401, 500⟩]

/-- The six fixed tables, in the order the source checks the pollutants. -/
def all_bp_tables : List (List Breakpoint) :=
  [pm25_bp, pm10_bp, no2_bp, so2_bp, co_bp, o3_bp]

/-- One observation row: the six pollutant concentration columns, each
possibly absent (`pd.notna` fails). -/
structure Observation where
  PM2_5_ugm3 : Option ℚ
  PM10_ugm3 : Option ℚ
  NO2_ugm3 : Option ℚ
  SO2_ugm3 : Option ℚ
  CO_ugm3 : Option ℚ
  O3_ugm3 : Option ℚ

/-- The `if pd.notna(...): sub_indices.append(get_sub_index(...))` idiom:
the contribution of one pollutant column to the `sub_indices` list. -/
def sub_index_of (c : Option ℚ) (bp : List Breakpoint) : List ℤ :=
  match c with
  | some v => [get_sub_index v bp]
  | none => []

/-- The `sub_indices` list built by `calculate_aqi`, in source order. -/
def sub_indices (row : Observation) : List ℤ :=
  sub_index_of row.PM2_5_ugm3 pm25_bp ++
  sub_index_of row.PM10_ugm3 pm10_bp ++
  sub_index_of row.NO2_ugm3 no2_bp ++
  sub_index_of row.SO2_ugm3 so2_bp ++
  sub_index_of row.CO_ugm3 co_bp ++
  sub_index_of row.O3_ugm3 o3_bp

/-- `calculate_aqi(row)`: `max(sub_indices) if sub_indices else None`. -/
def calculate_aqi (row : Observation) : Option ℤ :=
  match sub_indices row with
  | [] => none
  | s :: rest => some (rest.foldl max s)

/-- `get_aqi_category(aqi)` from `preprocess_data.py`: `(None, None)` on a
missing value, otherwise the six-band classification with inclusive upper
bounds. -/
def get_aqi_category (aqi : Option ℚ) : Option String × Option String :=
  match aqi with
  | none => (none, none)
  | some a =>
    if a ≤ 50 then (some "Good", some "#00E400")
    else if a ≤ 100 then (some "Satisfactory", some "#FFFF00")
    else if a ≤ 200 then (some "Moderate", some "#FF7E00")
    else if a ≤ 300 then (some "Poor", some "#FF0000")
    else if a ≤ 400 then (some "Very Poor", some "#8F3F97")
    else (some "Severe", some "#7E0023")

/-- `get_aqi_category(aqi)` as duplicated in `app.py` (no missing-value
check). -/
def app_get_aqi_category (aqi : ℚ) : String × String :=
  if aqi ≤ 50 then ("Good", "#00E400")
  else if aqi ≤ 100 then ("Satisfactory", "#FFFF00")
  else if aqi ≤ 200 then ("Moderate", "#FF7E00")
  else if aqi ≤ 300 then ("Poor", "#FF0000")
  else if aqi ≤ 400 then ("Very Poor", "#8F3F97")
  else ("Severe", "#7E0023")

/-- A stored AQI column cell: the integer AQI, or NaN for a missing row. -/
def aqi_cell (a : Option ℤ) : Option ℚ :=
  a.map fun z => (z : ℚ)

/-- The persisted table of `main`: the pollutant columns, plus the three
derived AQI columns when they have already been written. -/
structure DataTable where
  observations : List Observation
  aqi_columns : Option (List (Option ℤ) × List (Option String) × List (Option String))

/-- The batch transform of `main`, viewed as a pure function on tables:
drop any existing `AQI`, `AQI_Category`, `AQI_Color` columns, recompute
them row by row from the pollutant columns, and append them. -/
def batch_transform (t : DataTable) : DataTable :=
  let obs := t.observations
  let aqi := obs.map calculate_aqi
  { observations := obs,
    aqi_columns := some (aqi,
      aqi.map fun a => (get_aqi_category (aqi_cell a)).1,
      aqi.map fun a => (get_aqi_category (aqi_cell a)).2) }

/-- Concrete observation of the spec scenario: PM2.5 = 45, CO = 15, the
other four pollutants absent. -/
def row_pm25_co : Observation :=
  ⟨some 45, none, none, none, some 15, none⟩

/-- Concrete observation with only PM2.5 = 45 present. -/
def row_pm25_only : Observation :=
  ⟨some 45, none, none, none, none, none⟩

/-- Concrete observation with all six pollutant columns absent. -/
def row_all_absent : Observation :=
  ⟨none, none, none, none, none, none⟩

/-! ### Helper lemmas -/

/-- Python's `round` is the identity on integers. -/
theorem python_round_intCast (n : ℤ) : python_round (n : ℚ) = n := by
  rw [python_round, Int.floor_intCast]
  norm_num

/-- The left fold of `max` over a list is one of the folded values. -/
theorem foldl_max_mem (s : ℤ) (l : List ℤ) : l.foldl max s ∈ s :: l := by
  induction l generalizing s with
  | nil => simp
  | cons x xs ih =>
    rcases List.mem_cons.1 (ih (max s x)) with h | h
    · rcases max_choice s x with h2 | h2 <;> rw [h2] at h <;> simp [List.foldl_cons, h2, h]
    · simp [List.foldl_cons, List.mem_cons, h]

/-- The left fold of `max` over a list bounds every folded value. -/
theorem le_foldl_max (s : ℤ) (l : List ℤ) : ∀ u ∈ s :: l, u ≤ l.foldl max s := by
  induction l generalizing s with
  | nil =>
    intro u hu
    simp at hu
    simp [hu]
  | cons x xs ih =>
    intro u hu
    rcases List.mem_cons.1 hu with h | hu2
    · rw [h]
      exact le_trans (le_max_left s x) (ih (max s x) (max s x) (List.mem_cons_self _ _))
    · rcases List.mem_cons.1 hu2 with h | hu3
      · rw [h]
        exact le_trans (le_max_right s x) (ih (max s x) (max s x) (List.mem_cons_self _ _))
      · exact ih (max s x) u (List.mem_cons_of_mem _ hu3)

/-- If some range of the table contains `c` and it is the only one that
does, the linear scan interpolates inside exactly that range. -/
theorem get_sub_index_first_match (c : ℚ) :
    ∀ (t : List Breakpoint) (b : Breakpoint), b ∈ t →
      (b.c_low ≤ c ∧ c ≤ b.c_high) →
      (∀ b' ∈ t, b'.c_low ≤ c ∧ c ≤ b'.c_high → b' = b) →
      get_sub_index c t =
        python_round ((((b.i_high : ℚ) - (b.i_low : ℚ)) / (b.c_high - b.c_low)) *
          (c - b.c_low) + (b.i_low : ℚ)) := by
  intro t
  induction t with
  | nil =>
    intro b hb
    simp at hb
  | cons hd tl ih =>
    intro b hb hcond huniq
    by_cases hhd : hd.c_low ≤ c ∧ c ≤ hd.c_high
    · have heq : hd = b := huniq hd (List.mem_cons_self _ _) hhd
      rw [get_sub_index, if_pos hhd, heq]
    · have hb' : b ∈ tl := by
        rcases List.mem_cons.1 hb with h | h
        · exact absurd (h ▸ hcond) hhd
        · exact h
      rw [get_sub_index, if_neg hhd]
      exact ih b hb' hcond fun b' h' hc => huniq b' (List.mem_cons_of_mem _ h') hc

/-- In a table whose ranges are sorted and pairwise separated, at most one
range contains any given concentration. -/
theorem unique_match_of_pairwise :
    ∀ (t : List Breakpoint), List.Pairwise (fun r s => r.c_high < s.c_low) t →
      ∀ b ∈ t, ∀ (c : ℚ), b.c_low ≤ c ∧ c ≤ b.c_high →
      ∀ b' ∈ t, b'.c_low ≤ c ∧ c ≤ b'.c_high → b' = b := by
  intro t
  induction t with
  | nil => simp
  | cons hd tl ih =>
    intro hp b hb c hc b' hb' hc'
    rcases List.pairwise_cons.1 hp with ⟨hhd, htl⟩
    rcases List.mem_cons.1 hb with h | hbtl
    · rcases List.mem_cons.1 hb' with h' | hb'tl
      · rw [h', h]
      · exfalso
        have := hhd b' hb'tl
        rw [← h] at this
        linarith [hc.2, hc'.1]
    · rcases List.mem_cons.1 hb' with h' | hb'tl
      · exfalso
        have := hhd b hbtl
        rw [h'] at hc'
        linarith [hc'.2, hc.1]
      · exact ih htl b hbtl c hc b' hb'tl hc'

/-- If no range of the table contains `c`, the scan falls through to 500. -/
theorem get_sub_index_no_match (c : ℚ) :
    ∀ t : List Breakpoint, (∀ b ∈ t, ¬(b.c_low ≤ c ∧ c ≤ b.c_high)) →
      get_sub_index c t = 500 := by
  intro t
  induction t with
  | nil => intro _; rfl
  | cons hd tl ih =>
    intro h
    rw [get_sub_index, if_neg (h hd (List.mem_cons_self _ _))]
    exact ih fun b hb => h b (List.mem_cons_of_mem _ hb)

/-- In each of the six tables the ranges appear sorted, pairwise disjoint. -/
theorem all_tables_pairwise :
    ∀ t ∈ all_bp_tables, List.Pairwise (fun r s => r.c_high < s.c_low) t := by
  simp [all_bp_tables, pm25_bp, pm10_bp, no2_bp, so2_bp, co_bp, o3_bp, List.pairwise_cons]
  norm_num

/-- Every range of every table has `C_low < C_high`. -/
theorem tables_c_low_lt_c_high :
    ∀ t ∈ all_bp_tables, ∀ b ∈ t, b.c_low < b.c_high := by
  simp [all_bp_tables, pm25_bp, pm10_bp, no2_bp, so2_bp, co_bp, o3_bp]
  norm_num

/-- A pollutant contributes no sub-index exactly when its column is absent. -/
theorem sub_index_of_eq_nil (c : Option ℚ) (bp : List Breakpoint) :
    sub_index_of c bp = [] ↔ c = none := by
  cases c <;> simp [sub_index_of]

/-- Evaluation: PM2.5 = 45 interpolates in `[31,60] → [51,100]` to 75. -/
theorem get_sub_index_45_pm25 : get_sub_index 45 pm25_bp = 75 := by
  have hf : ⌊(2165/29 : ℚ)⌋ = 74 := by norm_num [Int.floor_eq_iff]
  norm_num [get_sub_index, pm25_bp, python_round, hf]

/-- Evaluation: CO = 15 interpolates in `[10.1,17] → [201,300]` to 271. -/
theorem get_sub_index_15_co : get_sub_index 15 co_bp = 271 := by
  have hf : ⌊(6240/23 : ℚ)⌋ = 271 := by norm_num [Int.floor_eq_iff]
  norm_num [get_sub_index, co_bp, python_round, hf]

/-- Evaluation of the whole row with PM2.5 = 45 and CO = 15. -/
theorem calculate_aqi_row_pm25_co : calculate_aqi row_pm25_co = some 271 := by
  simp [calculate_aqi, sub_indices, row_pm25_co, sub_index_of,
    get_sub_index_45_pm25, get_sub_index_15_co]

/-- Evaluation of the row with only PM2.5 = 45. -/
theorem calculate_aqi_row_pm25_only : calculate_aqi row_pm25_only = some 75 := by
  simp [calculate_aqi, sub_indices, row_pm25_only, sub_index_of, get_sub_index_45_pm25]

/-! ### Claim theorems -/

/-- Claim C1: `calculate_aqi` returns an absent result if and only if all six
pollutant concentration columns are absent on the row; otherwise its value is
exactly the maximum of the sub-indices collected for the present pollutants
(it is a collected sub-index and bounds every collected sub-index). -/
theorem calculate_aqi_absent_iff_and_is_max (row : Observation) :
    (calculate_aqi row = none ↔
      row.PM2_5_ugm3 = none ∧ row.PM10_ugm3 = none ∧ row.NO2_ugm3 = none ∧
      row.SO2_ugm3 = none ∧ row.CO_ugm3 = none ∧ row.O3_ugm3 = none) ∧
    ∀ v : ℤ, calculate_aqi row = some v →
      v ∈ sub_indices row ∧ ∀ u ∈ sub_indices row, u ≤ v := by
  have hnil : sub_indices row = [] ↔
      (row.PM2_5_ugm3 = none ∧ row.PM10_ugm3 = none ∧ row.NO2_ugm3 = none ∧
       row.SO2_ugm3 = none ∧ row.CO_ugm3 = none ∧ row.O3_ugm3 = none) := by
    rw [sub_indices]
    simp [List.append_eq_nil, sub_index_of_eq_nil]
  constructor
  · constructor
    · intro h
      rcases h' : sub_indices row with _ | ⟨s, rest⟩
      · exact hnil.1 h'
      · simp [calculate_aqi, h'] at h
    · intro hall
      simp [calculate_aqi, hnil.2 hall]
  · intro v hv
    rcases h' : sub_indices row with _ | ⟨s, rest⟩
    · simp [calculate_aqi, h'] at hv
    · simp [calculate_aqi, h'] at hv
      exact ⟨hv ▸ foldl_max_mem s rest, fun u hu => hv ▸ le_foldl_max s rest u hu⟩

/-- Claim C1, witness: on the row with only PM2.5 = 45 present the computed
AQI 75 is a collected sub-index and bounds all collected sub-indices. -/
theorem calculate_aqi_absent_iff_and_is_max_witness :
    (75 : ℤ) ∈ sub_indices row_pm25_only ∧ ∀ u ∈ sub_indices row_pm25_only, u ≤ 75 :=
  (calculate_aqi_absent_iff_and_is_max row_pm25_only).2 75 calculate_aqi_row_pm25_only

/-- Claim C2, counterexample: the PM2.5 concentration 30.5 lies between the
table's overall bounds 0 and 500 but inside none of its six ranges (the gap
between `C_high = 30` and the next `C_low = 31`), so the tables are not
contiguous over real-valued concentrations; the scan falls through to 500. -/
theorem pm25_table_gap_counterexample :
    (0 : ℚ) ≤ 30.5 ∧ (30.5 : ℚ) ≤ 500 ∧
    (∀ b ∈ pm25_bp, ¬(b.c_low ≤ (30.5 : ℚ) ∧ (30.5 : ℚ) ≤ b.c_high)) ∧
    get_sub_index 30.5 pm25_bp = 500 := by
  refine ⟨by norm_num, by norm_num, ?_, by norm_num [get_sub_index, pm25_bp]⟩
  norm_num [pm25_bp]

/-- Claim C2 (amended): for every pollutant the breakpoint ranges are sorted
and pairwise disjoint, and consecutive ranges are separated by exactly one
concentration step (1 unit for the five µg/m³ tables, 0.1 for CO) — so the
tables have gaps between `C_high` and the next `C_low`, and only the grid of
one-step concentrations is covered, not every real value in between. -/
theorem breakpoint_tables_sorted_disjoint_with_unit_gaps :
    (∀ t ∈ all_bp_tables, List.Pairwise (fun r s => r.c_high < s.c_low) t) ∧
    (∀ t ∈ [pm25_bp, pm10_bp, no2_bp, so2_bp, o3_bp],
      List.Chain' (fun r s => s.c_low = r.c_high + 1) t) ∧
    List.Chain' (fun r s => s.c_low = r.c_high + 1/10) co_bp := by
  refine ⟨all_tables_pairwise, ?_, ?_⟩
  · norm_num [pm25_bp, pm10_bp, no2_bp, so2_bp, o3_bp, List.chain'_cons]
  · norm_num [co_bp, List.chain'_cons]

/-- Claim C2, witness: the PM2.5 table is sorted with pairwise disjoint
ranges. -/
theorem breakpoint_tables_sorted_disjoint_with_unit_gaps_witness :
    List.Pairwise (fun r s => r.c_high < s.c_low) pm25_bp :=
  breakpoint_tables_sorted_disjoint_with_unit_gaps.1 pm25_bp (by simp [all_bp_tables])

/-- Claim C3: for every range of every table, interpolating at `C_low`
returns exactly `I_low` and interpolating at `C_high` returns exactly
`I_high`, with no rounding drift. -/
theorem interpolation_exact_at_endpoints :
    ∀ t ∈ all_bp_tables, ∀ b ∈ t,
      get_sub_index b.c_low t = b.i_low ∧ get_sub_index b.c_high t = b.i_high := by
  intro t ht b hb
  have hp := all_tables_pairwise t ht
  have hlt := tables_c_low_lt_c_high t ht b hb
  have hne : b.c_high - b.c_low ≠ 0 := sub_ne_zero.2 (ne_of_gt hlt)
  constructor
  · have hcond : b.c_low ≤ b.c_low ∧ b.c_low ≤ b.c_high := ⟨le_refl _, le_of_lt hlt⟩
    rw [get_sub_index_first_match b.c_low t b hb hcond
      (unique_match_of_pairwise t hp b hb b.c_low hcond)]
    have he : (((b.i_high : ℚ) - (b.i_low : ℚ)) / (b.c_high - b.c_low)) *
        (b.c_low - b.c_low) + (b.i_low : ℚ) = ((b.i_low : ℤ) : ℚ) := by
      rw [sub_self, mul_zero, zero_add]
    rw [he, python_round_intCast]
  · have hcond : b.c_low ≤ b.c_high ∧ b.c_high ≤ b.c_high := ⟨le_of_lt hlt, le_refl _⟩
    rw [get_sub_index_first_match b.c_high t b hb hcond
      (unique_match_of_pairwise t hp b hb b.c_high hcond)]
    have he : (((b.i_high : ℚ) - (b.i_low : ℚ)) / (b.c_high - b.c_low)) *
        (b.c_high - b.c_low) + (b.i_low : ℚ) = ((b.i_high : ℤ) : ℚ) := by
      rw [div_mul_cancel₀ _ hne]
      ring
    rw [he, python_round_intCast]

/-- Claim C3, witness: the second PM2.5 range `[31,60] → [51,100]` maps its
endpoints to exactly 51 and 100. -/
theorem interpolation_exact_at_endpoints_witness :
    get_sub_index (Breakpoint.mk 31 60 51 100).c_low pm25_bp =
      (Breakpoint.mk 31 60 51 100).i_low ∧
    get_sub_index (Breakpoint.mk 31 60 51 100).c_high pm25_bp =
      (Breakpoint.mk 31 60 51 100).i_high :=
  interpolation_exact_at_endpoints pm25_bp (by simp [all_bp_tables]) _ (by simp [pm25_bp])

/-- Claim C4: on every integer AQI in `[0, 500]` the classifier returns
exactly the band with inclusive upper bounds 50/100/200/300/400 and Severe
above 400; in particular 50 is Good and 51 is Satisfactory. -/
theorem get_aqi_category_partition :
    (∀ n : ℤ, 0 ≤ n → n ≤ 500 →
      get_aqi_category (some (n : ℚ)) =
        (if n ≤ 50 then (some "Good", some "#00E400")
         else if n ≤ 100 then (some "Satisfactory", some "#FFFF00")
         else if n ≤ 200 then (some "Moderate", some "#FF7E00")
         else if n ≤ 300 then (some "Poor", some "#FF0000")
         else if n ≤ 400 then (some "Very Poor", some "#8F3F97")
         else (some "Severe", some "#7E0023"))) ∧
    get_aqi_category (some ((50 : ℤ) : ℚ)) = (some "Good", some "#00E400") ∧
    get_aqi_category (some ((51 : ℤ) : ℚ)) = (some "Satisfactory", some "#FFFF00") := by
  have key : ∀ n : ℤ,
      get_aqi_category (some (n : ℚ)) =
        (if n ≤ 50 then (some "Good", some "#00E400")
         else if n ≤ 100 then (some "Satisfactory", some "#FFFF00")
         else if n ≤ 200 then (some "Moderate", some "#FF7E00")
         else if n ≤ 300 then (some "Poor", some "#FF0000")
         else if n ≤ 400 then (some "Very Poor", some "#8F3F97")
         else (some "Severe", some "#7E0023")) := by
    intro n
    by_cases h1 : n ≤ 50
    · have h1' : (n : ℚ) ≤ 50 := by exact_mod_cast h1
      simp [get_aqi_category, h1, h1']
    · have h1' : ¬((n : ℚ) ≤ 50) := by exact_mod_cast h1
      by_cases h2 : n ≤ 100
      · have h2' : (n : ℚ) ≤ 100 := by exact_mod_cast h2
        simp [get_aqi_category, h1, h1', h2, h2']
      · have h2' : ¬((n : ℚ) ≤ 100) := by exact_mod_cast h2
        by_cases h3 : n ≤ 200
        · have h3' : (n : ℚ) ≤ 200 := by exact_mod_cast h3
          simp [get_aqi_category, h1, h1', h2, h2', h3, h3']
        · have h3' : ¬((n : ℚ) ≤ 200) := by exact_mod_cast h3
          by_cases h4 : n ≤ 300
          · have h4' : (n : ℚ) ≤ 300 := by exact_mod_cast h4
            simp [get_aqi_category, h1, h1', h2, h2', h3, h3', h4, h4']
          · have h4' : ¬((n : ℚ) ≤ 300) := by exact_mod_cast h4
            by_cases h5 : n ≤ 400
            · have h5' : (n : ℚ) ≤ 400 := by exact_mod_cast h5
              simp [get_aqi_category, h1, h1', h2, h2', h3, h3', h4, h4', h5, h5']
            · have h5' : ¬((n : ℚ) ≤ 400) := by exact_mod_cast h5
              simp [get_aqi_category, h1, h1', h2, h2', h3, h3', h4, h4', h5, h5']
  refine ⟨fun n _ _ => key n, ?_, ?_⟩
  · rw [key 50]
    norm_num
  · rw [key 51]
    norm_num

/-- Claim C4, witness: the integer AQI 271 classifies as Poor, `#FF0000`. -/
theorem get_aqi_category_partition_witness :
    get_aqi_category (some ((271 : ℤ) : ℚ)) = (some "Poor", some "#FF0000") := by
  have h := get_aqi_category_partition.1 271 (by norm_num) (by norm_num)
  norm_num at h
  exact h

/-- Claim C5: a concentration contained in none of its table's ranges —
above the last upper bound or negative alike — yields sub-index 500. -/
theorem out_of_table_saturates (c : ℚ) (t : List Breakpoint) (_ht : t ∈ all_bp_tables)
    (h : ∀ b ∈ t, ¬(b.c_low ≤ c ∧ c ≤ b.c_high)) :
    get_sub_index c t = 500 :=
  get_sub_index_no_match c t h

/-- Claim C5, witness: the negative PM2.5 concentration −1 saturates to 500. -/
theorem out_of_table_saturates_witness : get_sub_index (-1) pm25_bp = 500 :=
  out_of_table_saturates (-1) pm25_bp (by simp [all_bp_tables]) (by norm_num [pm25_bp])

/-- Claim C6: the spec's concrete scenario: PM2.5 = 45 gives sub-index 75,
CO = 15 gives sub-index 271, the overall index is 271, and 271 classifies as
Poor with color `#FF0000`. -/
theorem concrete_scenario_pm25_co :
    get_sub_index 45 pm25_bp = 75 ∧ get_sub_index 15 co_bp = 271 ∧
    calculate_aqi row_pm25_co = some 271 ∧
    get_aqi_category (aqi_cell (calculate_aqi row_pm25_co)) = (some "Poor", some "#FF0000") := by
  refine ⟨get_sub_index_45_pm25, get_sub_index_15_co, calculate_aqi_row_pm25_co, ?_⟩
  rw [calculate_aqi_row_pm25_co]
  norm_num [aqi_cell, get_aqi_category]

/-- Claim C7: the per-row computation is total: every breakpoint range has
`C_low < C_high` (the interpolation divisor is never zero), and the
classifier yields a defined category and color for every defined index. -/
theorem per_row_computation_total :
    (∀ t ∈ all_bp_tables, ∀ b ∈ t, b.c_low < b.c_high) ∧
    (∀ q : ℚ, ∃ cat col, get_aqi_category (some q) = (some cat, some col)) := by
  refine ⟨tables_c_low_lt_c_high, ?_⟩
  intro q
  simp only [get_aqi_category]
  split_ifs <;> exact ⟨_, _, rfl⟩

/-- Claim C7, witness: the first PM2.5 range has `C_low < C_high`. -/
theorem per_row_computation_total_witness :
    (Breakpoint.mk 0 30 0 50).c_low < (Breakpoint.mk 0 30 0 50).c_high :=
  per_row_computation_total.1 pm25_bp (by simp [all_bp_tables]) _ (by simp [pm25_bp])

/-- Claim C8: on a row with all six pollutant columns absent the index is
absent, and classifying an absent index gives absent category and color —
never zero or Good. -/
theorem all_absent_gives_absent (row : Observation)
    (h1 : row.PM2_5_ugm3 = none) (h2 : row.PM10_ugm3 = none) (h3 : row.NO2_ugm3 = none)
    (h4 : row.SO2_ugm3 = none) (h5 : row.CO_ugm3 = none) (h6 : row.O3_ugm3 = none) :
    calculate_aqi row = none ∧
    get_aqi_category (aqi_cell (calculate_aqi row)) = (none, none) := by
  have h0 : calculate_aqi row = none := by
    simp [calculate_aqi, sub_indices, sub_index_of, h1, h2, h3, h4, h5, h6]
  exact ⟨h0, by rw [h0]; rfl⟩

/-- Claim C8, witness: the all-absent row evaluates to absent index,
category and color. -/
theorem all_absent_gives_absent_witness :
    calculate_aqi row_all_absent = none ∧
    get_aqi_category (aqi_cell (calculate_aqi row_all_absent)) = (none, none) :=
  all_absent_gives_absent row_all_absent rfl rfl rfl rfl rfl rfl

/-- Claim C9: the batch transform — drop any existing AQI columns, recompute
them from the pollutant columns, append — is idempotent on tables. -/
theorem batch_transform_idempotent (t : DataTable) :
    batch_transform (batch_transform t) = batch_transform t := rfl

/-- Claim C10: on every defined numeric AQI the classifier duplicated in
`app.py` returns exactly the pair of the preprocessing classifier. -/
theorem classifiers_agree (q : ℚ) :
    get_aqi_category (some q) =
      (some (app_get_aqi_category q).1, some (app_get_aqi_category q).2) := by
  simp only [get_aqi_category, app_get_aqi_category]
  split_ifs <;> rfl
